import Mathlib

/-!
Verification of the HAperf connection-listener core.

The definitions below are a shallow embedding of the HTTP and HTTPS server in
`src/server/src/HttpServer.cpp` together with the process entry point in
`src/src/main.cpp` (the argument-free `main`, lines 27-53).  Interaction with
the operating system and with OpenSSL is modelled by explicit parameters (the
result of the one `read`, the value returned by `write`, the outcomes of the
three SSL-context initialisation calls, the outcome of each socket-setup
step), and the observable behaviour of each function is recorded as a list of
events (system calls, log lines, thrown exceptions).
-/

namespace HAperf

/-- ASCII bytes of a string literal, used to build the response byte-for-byte. -/
def bytesOfString (s : String) : List Nat :=
  s.data.map Char.toNat

/-- A broken-down local time, as produced by `std::localtime`. -/
structure Tm where
  year : Nat
  month : Nat
  day : Nat
  hour : Nat
  minute : Nat
  second : Nat
deriving DecidableEq

/-- Two-digit zero padding, as done by the `%m %d %H %M %S` conversions. -/
def pad2 (n : Nat) : String :=
  if n < 10 then "0" ++ toString n else toString n

/-- `HttpServer::get_formatted_time` (HttpServer.cpp lines 194-205): formats
the current local time with `std::put_time(.., "%Y-%m-%d %H:%M:%S")`. -/
def get_formatted_time (t : Tm) : String :=
  toString t.year ++ "-" ++ pad2 t.month ++ "-" ++ pad2 t.day ++ " "
    ++ pad2 t.hour ++ ":" ++ pad2 t.minute ++ ":" ++ pad2 t.second

/-- The fixed response head built in `handle_request` (HttpServer.cpp line 229). -/
def respHead : List Nat :=
  bytesOfString "HTTP/1.1 200 OK\r\nContent-Type: text/plain\r\n\r\n"

/-- The literal marker appended after the timestamp (HttpServer.cpp line 230). -/
def receivedMarker : List Nat :=
  bytesOfString " - received:\n\n"

/-- The full response bytes for timestamp `t` and echoed bytes `echoed`
(HttpServer.cpp lines 229-231 and 258-260). -/
def respBytes (t : Tm) (echoed : List Nat) : List Nat :=
  respHead ++ bytesOfString (get_formatted_time t) ++ receivedMarker ++ echoed

/-- Observable events of the server: system calls, OpenSSL calls, log output
and thrown exceptions. -/
inductive Event where
  | acceptCall : Event
  | perrorCall (tag : String) : Event
  | readCall (fd : Int) (cap : Nat) : Event
  | sslReadCall (cap : Nat) : Event
  | writeCall (fd : Int) (data : List Nat) (ret : Int) : Event
  | sslWriteCall (data : List Nat) (ret : Int) : Event
  | cerrLog (msg : String) : Event
  | closeCall (fd : Int) : Event
  | sslNewCall : Event
  | sslSetFdCall (fd : Int) : Event
  | sslAcceptCall : Event
  | sslShutdownCall : Event
  | sslFreeCall : Event
  | spawnPlain (fd : Int) : Event
  | spawnSSL (fd : Int) : Event
  | certLoadCall : Event
  | keyLoadCall : Event
  | keyCheckCall : Event
  | throwEv (msg : String) : Event
deriving DecidableEq

/-- Result of the single `read` / `SSL_read` call: either the bytes delivered
(`valread` is their number, which is at most the buffer capacity 1024), or a
failure (`read` returns -1, `SSL_read` returns 0 or a negative value). -/
inductive ReadRes where
  | bytes (bs : List Nat) : ReadRes
  | fail : ReadRes
deriving DecidableEq

/-- The 1024-byte stack buffer `char buffer[1024] = {0}` after the read wrote
the delivered bytes into its front: the delivered bytes followed by the
remaining zero-initialised bytes. -/
def mkBuffer (bs : List Nat) : List Nat :=
  bs.take 1024 ++ List.replicate (1024 - (bs.take 1024).length) 0

/-- C-string extraction as performed by `response += buffer`
(`std::string::operator+=(const char*)`): the bytes before the first NUL
terminator.  When no terminator exists inside the buffer object the scan runs
past its end — undefined behaviour, modelled as `none`. -/
def cString : List Nat → Option (List Nat)
  | [] => none
  | b :: rest => if b = 0 then some [] else (cString rest).map (fun tl => b :: tl)

/-- `HttpServer::handle_request` (HttpServer.cpp lines 214-235).  `fd` is the
client socket, `t` the current local time, `r` the outcome of the single
`read`, and `wret` the value the OS returns from the single `write` (which
the code ignores).  The result is the list of observable events, or `none`
when the run hits undefined behaviour (unterminated buffer). -/
def handle_request (fd : Int) (t : Tm) (r : ReadRes) (wret : Int) :
    Option (List Event) :=
  match r with
  | ReadRes.fail =>
    -- valread == -1: perror("read"); return;  (no write, no close)
    some [Event.readCall fd 1024, Event.perrorCall "read"]
  | ReadRes.bytes bs =>
    -- any non-negative valread (including 0) falls through to the response
    match cString (mkBuffer bs) with
    | none => none
    | some echoed =>
      some [Event.readCall fd 1024,
            Event.writeCall fd (respBytes t echoed) wret,
            Event.closeCall fd]

/-- The events of the single `SSL_write` and the error log that follows a
non-positive return value (HttpServer.cpp lines 263-269). -/
def sslWriteEvents (data : List Nat) (wret : Int) : List Event :=
  if wret ≤ 0 then
    [Event.sslWriteCall data wret, Event.cerrLog "Failed to send response to client"]
  else
    [Event.sslWriteCall data wret]

/-- `HttpServer::handle_request_ssl` (HttpServer.cpp lines 245-273).  The
early return fires when `SSL_read` returns zero or a negative value
(`valread <= 0`), i.e. on `ReadRes.fail` or on an empty byte delivery. -/
def handle_request_ssl (fd : Int) (t : Tm) (r : ReadRes) (wret : Int) :
    Option (List Event) :=
  match r with
  | ReadRes.fail => some [Event.sslReadCall 1024]
  | ReadRes.bytes bs =>
    if bs.length = 0 then
      some [Event.sslReadCall 1024]
    else
      match cString (mkBuffer bs) with
      | none => none
      | some echoed =>
        some ([Event.sslReadCall 1024]
              ++ sslWriteEvents (respBytes t echoed) wret
              ++ [Event.sslShutdownCall, Event.closeCall fd])

/-- The body of the detached plaintext thread (HttpServer.cpp lines 182-184):
it runs `handle_request` and nothing else. -/
def plainConnTask (fd : Int) (t : Tm) (r : ReadRes) (wret : Int) :
    Option (List Event) :=
  handle_request fd t r wret

/-- The body of the detached TLS thread (HttpServer.cpp lines 173-177): it
runs `handle_request_ssl`, then `SSL_shutdown`, then `SSL_free` (which does
not close the underlying descriptor, as `SSL_set_fd` installs a no-close
socket BIO). -/
def sslConnTask (fd : Int) (t : Tm) (r : ReadRes) (wret : Int) :
    Option (List Event) :=
  (handle_request_ssl fd t r wret).map
    (fun es => es ++ [Event.sslShutdownCall, Event.sslFreeCall])

/-- A read that delivers as much of the client payload as fits in the buffer:
`read(fd, buffer, 1024)` returns at most 1024 bytes. -/
def oneReadOf (payload : List Nat) : ReadRes :=
  ReadRes.bytes (payload.take 1024)

/-- Whether an event is a write of response bytes to the client. -/
def isWriteEv : Event → Bool
  | Event.writeCall _ _ _ => true
  | Event.sslWriteCall _ _ => true
  | _ => false

/-- Number of write calls in a trace. -/
def countWrites (es : List Event) : Nat :=
  (es.filter isWriteEv).length

/-- Number of `SSL_shutdown` calls in a trace. -/
def countShutdowns (es : List Event) : Nat :=
  (es.filter (fun e => e = Event.sslShutdownCall)).length

/-- Outcomes of the three OpenSSL context-initialisation calls the
constructor makes: whether `SSL_CTX_use_certificate_file` returns a positive
value, whether `SSL_CTX_use_PrivateKey_file` does, and whether
`SSL_CTX_check_private_key` succeeds. -/
structure SSLEnv where
  certLoadOk : Bool
  keyLoadOk : Bool
  keyMatches : Bool
deriving DecidableEq

/-- The fields of a constructed `HttpServer` relevant to the claims
(HttpServer.cpp lines 52-60). -/
structure ServerCfg where
  address : String
  port : String
  cert_file : String
  key_file : String
  use_ssl : Bool
deriving DecidableEq

/-- Message of the exception thrown when the certificate fails to load
(HttpServer.cpp line 75). -/
def certLoadMsg : String := "Failed to load server certificate"

/-- Message of the exception thrown when the private key fails to load
(HttpServer.cpp line 81). -/
def keyLoadMsg : String := "Failed to load server private key"

/-- Message of the exception thrown when the key does not match the
certificate (HttpServer.cpp line 87). -/
def keyMismatchMsg : String := "Server private key does not match the certificate public key"

/-- `HttpServer::HttpServer` (HttpServer.cpp lines 52-90).  SSL is enabled
exactly when `!cert_file.empty() && !key_file.empty()`; only then are the
certificate loaded, the key loaded and the key checked, in that order, each
failure throwing its own `std::runtime_error`.  Returns the OpenSSL calls
made and either the thrown message or the constructed server. -/
def HttpServer_ctor (address port cert key : String) (env : SSLEnv) :
    List Event × Except String ServerCfg :=
  if !cert.isEmpty && !key.isEmpty then
    if !env.certLoadOk then
      ([Event.certLoadCall], Except.error certLoadMsg)
    else if !env.keyLoadOk then
      ([Event.certLoadCall, Event.keyLoadCall], Except.error keyLoadMsg)
    else if !env.keyMatches then
      ([Event.certLoadCall, Event.keyLoadCall, Event.keyCheckCall],
       Except.error keyMismatchMsg)
    else
      ([Event.certLoadCall, Event.keyLoadCall, Event.keyCheckCall],
       Except.ok ⟨address, port, cert, key, true⟩)
  else
    ([], Except.ok ⟨address, port, cert, key, false⟩)

/-- Outcomes of the socket-setup steps performed by `HttpServer::run`
before the accept loop (HttpServer.cpp lines 115-145). -/
structure RunEnv where
  resolveOk : Bool
  socketOk : Bool
  sockoptOk : Bool
  bindOk : Bool
  listenOk : Bool
deriving DecidableEq

/-- The startup part of `HttpServer::run` (HttpServer.cpp lines 115-145):
`getaddrinfo`, `create_socket`, `set_socket_options`, `bind_socket`,
`listen_on_socket`, each throwing `std::runtime_error` on failure. -/
def run_startup (env : RunEnv) : Except String Unit :=
  if !env.resolveOk then Except.error "Failed to get address information"
  else if !env.socketOk then Except.error "Failed to create socket"
  else if !env.sockoptOk then Except.error "Failed to set socket options"
  else if !env.bindOk then Except.error "Failed to bind socket"
  else if !env.listenOk then Except.error "Failed to listen on socket"
  else Except.ok ()

/-- Result of one `accept` call: failure (returns -1) or a new client
descriptor. -/
inductive AcceptRes where
  | fail : AcceptRes
  | conn (fd : Int) : AcceptRes
deriving DecidableEq

/-- Result of `SSL_accept`, the TLS handshake on one accepted connection. -/
inductive HsRes where
  | ok : HsRes
  | fail : HsRes
deriving DecidableEq

/-- One iteration of the accept loop of `HttpServer::run` (HttpServer.cpp
lines 148-186): the events it performs, whether the loop proceeds to the
next accept (every path does: each branch ends in `continue` or falls to the
end of the `while (true)` body), and the server state afterwards (the loop
never mutates it). -/
def loopIteration (cfg : ServerCfg) (a : AcceptRes) (hs : HsRes) :
    List Event × Bool × ServerCfg :=
  match a with
  | AcceptRes.fail =>
    ([Event.acceptCall, Event.perrorCall "accept"], true, cfg)
  | AcceptRes.conn fd =>
    if cfg.use_ssl then
      match hs with
      | HsRes.fail =>
        ([Event.acceptCall, Event.sslNewCall, Event.sslSetFdCall fd,
          Event.sslAcceptCall, Event.sslFreeCall, Event.closeCall fd],
         true, cfg)
      | HsRes.ok =>
        ([Event.acceptCall, Event.sslNewCall, Event.sslSetFdCall fd,
          Event.sslAcceptCall, Event.spawnSSL fd],
         true, cfg)
    else
      ([Event.acceptCall, Event.spawnPlain fd], true, cfg)

/-- The accept loop run over a sequence of accept/handshake outcomes. -/
def loopRun (cfg : ServerCfg) : List (AcceptRes × HsRes) → List Event
  | [] => []
  | c :: rest => (loopIteration cfg c.1 c.2).1 ++ loopRun cfg rest

/-- Full startup of one listener: construction, then `run`'s socket setup. -/
def listenerStartup (address port cert key : String) (senv : SSLEnv)
    (renv : RunEnv) : Except String ServerCfg :=
  match (HttpServer_ctor address port cert key senv).2 with
  | Except.error e => Except.error e
  | Except.ok cfg =>
    match run_startup renv with
    | Except.error e => Except.error e
    | Except.ok _ => Except.ok cfg

/-- The startup outcome of one listener thread, forgetting the state. -/
def listenerResult (address port cert key : String) (senv : SSLEnv)
    (renv : RunEnv) : Except String Unit :=
  match listenerStartup address port cert key senv renv with
  | Except.error e => Except.error e
  | Except.ok _ => Except.ok ()

/-- The observable events of one listener over a sequence of connection
outcomes: the constructor's OpenSSL calls, then either the thrown startup
exception or the accept-loop iterations. -/
def listenerTrace (address port cert key : String) (senv : SSLEnv)
    (renv : RunEnv) (conns : List (AcceptRes × HsRes)) : List Event :=
  match HttpServer_ctor address port cert key senv with
  | (es, Except.error e) => es ++ [Event.throwEv e]
  | (es, Except.ok cfg) =>
    match run_startup renv with
    | Except.error e => es ++ [Event.throwEv e]
    | Except.ok _ => es ++ loopRun cfg conns

/-- Fate of the whole process as decided by `main` (main.cpp lines 27-53). -/
inductive ProcOutcome where
  | running : ProcOutcome
  | terminated : ProcOutcome
deriving DecidableEq

/-- `main` (main.cpp lines 27-53) given the startup outcomes of the two
listener threads.  Each listener runs inside its own `std::thread` lambda;
main's `try`/`catch` wraps only thread construction and the two joins, so an
exception thrown by `HttpServer::HttpServer` or `HttpServer::run` inside a
thread is uncaught there, and C++ then calls `std::terminate`, which aborts
the entire process — including the sibling listener.  When both startups
succeed, both loops block in accept forever and the process keeps running. -/
def mainProcess (r80 r443 : Except String Unit) : ProcOutcome :=
  match r80, r443 with
  | Except.ok _, Except.ok _ => ProcOutcome.running
  | _, _ => ProcOutcome.terminated

/-- Whether, in the given process outcome, a listener other than the failed
one is still running its accept loop. -/
def listenerSurvives (o : ProcOutcome) : Bool :=
  match o with
  | ProcOutcome.running => true
  | ProcOutcome.terminated => false

/-- The value `main` returns when an exception does reach its own `catch`
block (main.cpp lines 47-52): it prints the message to `std::cerr` and falls
through to `return 0`. -/
def mainCatchExitCode : Nat := 0

/-- A fixed sample time used for concrete runs: 2023-01-02 03:04:05. -/
def t0 : Tm := ⟨2023, 1, 2, 3, 4, 5⟩

/-! ### Helper lemmas about the C-string scan and the read buffer -/

/-- A buffer whose bytes are all equal to a nonzero value has no NUL
terminator, so the C-string scan is undefined on it. -/
theorem cString_replicate_ne (n b : Nat) (hb : b ≠ 0) :
    cString (List.replicate n b) = none := by
  induction n with
  | zero => simp [cString]
  | succ k ih => simp [List.replicate_succ, cString, hb, ih]

/-- The C-string scan of a NUL-free prefix followed by a NUL yields exactly
that prefix. -/
theorem cString_append_zero (P rest : List Nat) (h : (0 : Nat) ∉ P) :
    cString (P ++ 0 :: rest) = some P := by
  induction P with
  | nil => simp [cString]
  | cons b tl ih =>
    have hb : b ≠ 0 := by
      intro hb0
      exact h (by simp [hb0])
    have htl : (0 : Nat) ∉ tl := fun hm => h (List.mem_cons_of_mem _ hm)
    simp [cString, hb, ih htl]

/-- For a NUL-free payload of at most 1023 bytes, the zero-initialised tail
of the 1024-byte buffer terminates the C string right after the payload, so
the scan recovers the payload exactly. -/
theorem cString_mkBuffer_small (P : List Nat) (h1 : P.length ≤ 1023)
    (h2 : (0 : Nat) ∉ P) : cString (mkBuffer P) = some P := by
  have ht : P.take 1024 = P := List.take_of_length_le (by omega)
  simp only [mkBuffer, ht]
  have hn : 1024 - P.length = (1023 - P.length) + 1 := by omega
  rw [hn, List.replicate_succ]
  exact cString_append_zero P _ h2

/-- When the read fills the whole buffer there is no zero padding left. -/
theorem mkBuffer_of_full (bs : List Nat) (h : (bs.take 1024).length = 1024) :
    mkBuffer bs = bs.take 1024 := by
  simp only [mkBuffer, h]
  simp

/-! ### Claim C1 -/

/-- Claim C1 as stated: for every successful read of a payload of 1 to 1024
bytes, the handler's behaviour is the read, a single write of exactly
`head ++ timestamp ++ marker ++ payload` — the payload verbatim,
byte-for-byte — and the close. -/
def verbatimEchoClaim : Prop :=
  ∀ (fd : Int) (t : Tm) (wret : Int) (P : List Nat),
    1 ≤ P.length → P.length ≤ 1024 →
    handle_request fd t (ReadRes.bytes P) wret =
      some [Event.readCall fd 1024,
            Event.writeCall fd (respBytes t P) wret,
            Event.closeCall fd]

/-- C1 counterexample: the one-byte payload `[0]` (a single NUL byte) is
read successfully, but `response += buffer` stops at the NUL, so the
response carries the empty echo instead of the payload — the echo is not
byte-for-byte verbatim. -/
theorem c1_nul_byte_counterexample : ¬ verbatimEchoClaim := by
  intro h
  have h0 := h 3 t0 0 [0] (by norm_num) (by norm_num)
  have h1 : handle_request 3 t0 (ReadRes.bytes [0]) 0 =
      some [Event.readCall 3 1024,
            Event.writeCall 3 (respBytes t0 []) 0,
            Event.closeCall 3] := rfl
  have h2 : respBytes t0 [] = respBytes t0 [0] := by
    have h3 := h1.symm.trans h0
    simpa using h3
  have h4 := congrArg List.length h2
  simp only [respBytes, List.length_append, List.length_cons,
    List.length_nil] at h4
  omega

/-- C1 (amended): for every successful read of a payload of 1 to 1023 bytes
that contains no NUL byte, the handler responds with exactly the fixed head,
the formatted local time, the marker and the payload verbatim, in a single
write, and then closes the socket.  (A payload containing a NUL byte is
echoed only up to its first NUL, and a full 1024-byte NUL-free payload
leaves the buffer unterminated, so the append overruns it.) -/
theorem c1_amended_verbatim_echo (fd : Int) (t : Tm) (wret : Int)
    (P : List Nat) (h1 : 1 ≤ P.length) (h2 : P.length ≤ 1023)
    (h3 : (0 : Nat) ∉ P) :
    handle_request fd t (ReadRes.bytes P) wret =
      some [Event.readCall fd 1024,
            Event.writeCall fd (respBytes t P) wret,
            Event.closeCall fd] := by
  simp [handle_request, cString_mkBuffer_small P h2 h3]

/-- C1 witness: the amended theorem applied to the two-byte payload "hi". -/
theorem c1_amended_verbatim_echo_witness :
    handle_request 3 t0 (ReadRes.bytes [104, 105]) 0 =
      some [Event.readCall 3 1024,
            Event.writeCall 3 (respBytes t0 [104, 105]) 0,
            Event.closeCall 3] :=
  c1_amended_verbatim_echo 3 t0 0 [104, 105] (by norm_num) (by norm_num)
    (by decide)

/-! ### Claim C2 -/

/-- Claim C2 as stated: whenever the read fails or delivers zero bytes, the
handling task (plaintext and TLS alike) writes no response bytes and still
closes the connection's socket before it finishes. -/
def silentDropClaim : Prop :=
  (∀ (fd : Int) (t : Tm) (wret : Int) (tr : List Event),
      plainConnTask fd t ReadRes.fail wret = some tr →
      countWrites tr = 0 ∧ Event.closeCall fd ∈ tr) ∧
  (∀ (fd : Int) (t : Tm) (wret : Int) (tr : List Event),
      plainConnTask fd t (ReadRes.bytes []) wret = some tr →
      countWrites tr = 0 ∧ Event.closeCall fd ∈ tr) ∧
  (∀ (fd : Int) (t : Tm) (wret : Int) (tr : List Event),
      sslConnTask fd t ReadRes.fail wret = some tr →
      countWrites tr = 0 ∧ Event.closeCall fd ∈ tr) ∧
  (∀ (fd : Int) (t : Tm) (wret : Int) (tr : List Event),
      sslConnTask fd t (ReadRes.bytes []) wret = some tr →
      countWrites tr = 0 ∧ Event.closeCall fd ∈ tr)

/-- C2 counterexample: a plaintext read that returns zero bytes does not
take the early return — `handle_request` only checks `valread == -1` — so
the handler composes and writes a full response for the empty payload. -/
theorem c2_zero_read_counterexample : ¬ silentDropClaim := by
  intro h
  have h0 := h.2.1 3 t0 0
    [Event.readCall 3 1024,
     Event.writeCall 3 (respBytes t0 []) 0,
     Event.closeCall 3] rfl
  exact absurd h0.1 (by decide)

/-- C2 (amended): only the TLS handler drops zero-or-negative reads
silently; the plaintext handler returns early only when the read reports an
error (-1), and a plaintext zero-byte read still receives a full response.
On every early-return path no response bytes are written and no error is
raised, but the socket is not closed before the handling task finishes: the
plaintext task just returns, and the TLS task only shuts down and frees the
session. -/
theorem c2_amended_early_return_paths :
    (∀ (fd : Int) (t : Tm) (wret : Int),
        plainConnTask fd t ReadRes.fail wret =
          some [Event.readCall fd 1024, Event.perrorCall "read"]) ∧
    (∀ (fd : Int) (t : Tm) (wret : Int),
        sslConnTask fd t ReadRes.fail wret =
          some [Event.sslReadCall 1024, Event.sslShutdownCall,
                Event.sslFreeCall]) ∧
    (∀ (fd : Int) (t : Tm) (wret : Int),
        sslConnTask fd t (ReadRes.bytes []) wret =
          some [Event.sslReadCall 1024, Event.sslShutdownCall,
                Event.sslFreeCall]) ∧
    (∀ (fd : Int) (t : Tm) (wret : Int) (tr : List Event),
        plainConnTask fd t ReadRes.fail wret = some tr →
        countWrites tr = 0 ∧ Event.closeCall fd ∉ tr) ∧
    (∀ (fd : Int) (t : Tm) (wret : Int) (tr : List Event),
        sslConnTask fd t (ReadRes.bytes []) wret = some tr →
        countWrites tr = 0 ∧ Event.closeCall fd ∉ tr) ∧
    (∀ (fd : Int) (t : Tm) (wret : Int) (tr : List Event),
        plainConnTask fd t (ReadRes.bytes []) wret = some tr →
        countWrites tr = 1) := by
  refine ⟨fun fd t wret => rfl, fun fd t wret => rfl, fun fd t wret => rfl,
    ?_, ?_, ?_⟩
  · intro fd t wret tr h
    have h1 : plainConnTask fd t ReadRes.fail wret =
        some [Event.readCall fd 1024, Event.perrorCall "read"] := rfl
    rw [h1] at h
    injection h with h
    subst h
    constructor
    · rfl
    · simp
  · intro fd t wret tr h
    have h1 : sslConnTask fd t (ReadRes.bytes []) wret =
        some [Event.sslReadCall 1024, Event.sslShutdownCall,
              Event.sslFreeCall] := rfl
    rw [h1] at h
    injection h with h
    subst h
    constructor
    · rfl
    · simp
  · intro fd t wret tr h
    have h1 : plainConnTask fd t (ReadRes.bytes []) wret =
        some [Event.readCall fd 1024,
              Event.writeCall fd (respBytes t []) wret,
              Event.closeCall fd] := rfl
    rw [h1] at h
    injection h with h
    subst h
    rfl

/-- C2 witness: the amended theorem applied at concrete inputs — a failed
plaintext read produces only the read and the perror, and a zero-byte
plaintext read produces a trace with one write. -/
theorem c2_amended_early_return_paths_witness :
    plainConnTask 3 t0 ReadRes.fail 0 =
      some [Event.readCall 3 1024, Event.perrorCall "read"] ∧
    countWrites [Event.readCall 3 1024,
                 Event.writeCall 3 (respBytes t0 []) 0,
                 Event.closeCall 3] = 1 :=
  ⟨c2_amended_early_return_paths.1 3 t0 0,
   c2_amended_early_return_paths.2.2.2.2.2 3 t0 0 _ rfl⟩

/-! ### Claim C3 -/

/-- Claim C3's retry part as stated: whenever a write transmits only part of
the response bytes (a non-negative return value smaller than the data), the
handler issues further writes for the remaining bytes, so the trace holds at
least two write calls. -/
def retriesPartialWrites : Prop :=
  ∀ (fd : Int) (t : Tm) (r : ReadRes) (wret : Int) (tr : List Event)
    (data : List Nat),
    handle_request fd t r wret = some tr →
    Event.writeCall fd data wret ∈ tr →
    0 ≤ wret → wret < (data.length : Int) →
    2 ≤ countWrites tr

/-- C3 counterexample: a run in which the single `write` reports only 1 of
the response's bytes transmitted still performs exactly one write call — the
return value of `write` is discarded and nothing is retried. -/
theorem c3_no_retry_counterexample : ¬ retriesPartialWrites := by
  intro h
  have heq : handle_request 3 t0 (ReadRes.bytes [104, 105]) 1 =
      some [Event.readCall 3 1024,
            Event.writeCall 3 (respBytes t0 [104, 105]) 1,
            Event.closeCall 3] := by
    simp [handle_request,
      cString_mkBuffer_small [104, 105] (by norm_num) (by decide)]
  have hlen : 2 ≤ (respBytes t0 [104, 105]).length := by
    simp only [respBytes, List.length_append, List.length_cons,
      List.length_nil]
    omega
  have hlt : (1 : Int) < ((respBytes t0 [104, 105]).length : Int) := by
    have h2 : 1 < (respBytes t0 [104, 105]).length := by omega
    exact_mod_cast h2
  have h0 := h 3 t0 (ReadRes.bytes [104, 105]) 1 _
    (respBytes t0 [104, 105]) heq (by simp) (by norm_num) hlt
  have h1 : countWrites [Event.readCall 3 1024,
      Event.writeCall 3 (respBytes t0 [104, 105]) 1,
      Event.closeCall 3] = 1 := rfl
  omega

/-- C3 (amended): the handler performs a single write call carrying the full
composed response and never issues a second one — the value the OS returns
from the write (partial or not) is ignored by the plaintext handler and only
logged by the TLS handler, so partial writes are not retried; every trace of
either handler holds at most one write call. -/
theorem c3_amended_single_write :
    (∀ (fd : Int) (t : Tm) (r : ReadRes) (wret : Int) (tr : List Event),
        handle_request fd t r wret = some tr → countWrites tr ≤ 1) ∧
    (∀ (fd : Int) (t : Tm) (r : ReadRes) (wret : Int) (tr : List Event),
        handle_request_ssl fd t r wret = some tr → countWrites tr ≤ 1) ∧
    (∀ (fd : Int) (t : Tm) (bs : List Nat) (wret : Int) (echoed : List Nat),
        cString (mkBuffer bs) = some echoed →
        handle_request fd t (ReadRes.bytes bs) wret =
          some [Event.readCall fd 1024,
                Event.writeCall fd (respBytes t echoed) wret,
                Event.closeCall fd]) := by
  refine ⟨?_, ?_, ?_⟩
  · intro fd t r wret tr h
    cases r with
    | fail =>
      simp only [handle_request] at h
      injection h with h
      subst h
      simp [countWrites, isWriteEv]
    | bytes bs =>
      cases hcs : cString (mkBuffer bs) with
      | none => simp [handle_request, hcs] at h
      | some echoed =>
        simp only [handle_request, hcs] at h
        injection h with h
        subst h
        simp [countWrites, isWriteEv]
  · intro fd t r wret tr h
    cases r with
    | fail =>
      simp only [handle_request_ssl] at h
      injection h with h
      subst h
      simp [countWrites, isWriteEv]
    | bytes bs =>
      by_cases hb : bs.length = 0
      · simp only [handle_request_ssl, hb, if_pos rfl] at h
        injection h with h
        subst h
        simp [countWrites, isWriteEv]
      · cases hcs : cString (mkBuffer bs) with
        | none => simp [handle_request_ssl, hb, hcs] at h
        | some echoed =>
          simp only [handle_request_ssl, hb, if_neg hb, hcs] at h
          injection h with h
          subst h
          by_cases hw : wret ≤ 0 <;>
            simp [countWrites, sslWriteEvents, isWriteEv, hw,
              List.filter_append]
  · intro fd t bs wret echoed hcs
    simp [handle_request, hcs]

/-- C3 witness: the amended theorem applied at a concrete run with a partial
write result (1 byte of a response much longer than 1 byte). -/
theorem c3_amended_single_write_witness :
    handle_request 3 t0 (ReadRes.bytes [104, 105]) 1 =
      some [Event.readCall 3 1024,
            Event.writeCall 3 (respBytes t0 [104, 105]) 1,
            Event.closeCall 3] ∧
    countWrites [Event.readCall 3 1024,
                 Event.writeCall 3 (respBytes t0 [104, 105]) 1,
                 Event.closeCall 3] ≤ 1 :=
  ⟨c3_amended_single_write.2.2 3 t0 [104, 105] 1 [104, 105]
     (cString_mkBuffer_small [104, 105] (by norm_num) (by decide)),
   c3_amended_single_write.1 3 t0 (ReadRes.bytes [104, 105]) 1 _
     (c3_amended_single_write.2.2 3 t0 [104, 105] 1 [104, 105]
       (cString_mkBuffer_small [104, 105] (by norm_num) (by decide)))⟩

/-! ### Claim C4 -/

/-- C4: for an encrypted listener (both paths non-empty) the constructor
loads the certificate, loads the key and checks the key against the
certificate, failing with a distinct fatal error in each of the three cases;
a mismatched pair fails before any connection is accepted (no accept event
ever appears in the listener's trace), and every pair that loads and matches
constructs the TLS server successfully. -/
theorem c4_tls_context_validation :
    (certLoadMsg ≠ keyLoadMsg ∧ certLoadMsg ≠ keyMismatchMsg ∧
      keyLoadMsg ≠ keyMismatchMsg) ∧
    (∀ (a p c k : String) (env : SSLEnv),
        c.isEmpty = false → k.isEmpty = false → env.certLoadOk = false →
        (HttpServer_ctor a p c k env).2 = Except.error certLoadMsg) ∧
    (∀ (a p c k : String) (env : SSLEnv),
        c.isEmpty = false → k.isEmpty = false →
        env.certLoadOk = true → env.keyLoadOk = false →
        (HttpServer_ctor a p c k env).2 = Except.error keyLoadMsg) ∧
    (∀ (a p c k : String),
        c.isEmpty = false → k.isEmpty = false →
        (HttpServer_ctor a p c k ⟨true, true, false⟩).2 =
          Except.error keyMismatchMsg) ∧
    (∀ (a p c k : String),
        c.isEmpty = false → k.isEmpty = false →
        (HttpServer_ctor a p c k ⟨true, true, true⟩).2 =
          Except.ok ⟨a, p, c, k, true⟩) ∧
    (∀ (a p c k : String) (env : SSLEnv) (renv : RunEnv)
        (conns : List (AcceptRes × HsRes)),
        c.isEmpty = false → k.isEmpty = false → env.keyMatches = false →
        Event.acceptCall ∉ listenerTrace a p c k env renv conns) := by
  refine ⟨⟨by decide, by decide, by decide⟩, ?_, ?_, ?_, ?_, ?_⟩
  · intro a p c k env hc hk hcl
    simp [HttpServer_ctor, hc, hk, hcl]
  · intro a p c k env hc hk hcl hkl
    simp [HttpServer_ctor, hc, hk, hcl, hkl]
  · intro a p c k hc hk
    simp [HttpServer_ctor, hc, hk]
  · intro a p c k hc hk
    simp [HttpServer_ctor, hc, hk]
  · intro a p c k env renv conns hc hk hkm
    rcases env with ⟨cl, kl, km⟩
    simp only at hkm
    subst hkm
    cases cl <;> cases kl <;>
      simp [listenerTrace, HttpServer_ctor, hc, hk]

/-- C4 witness: the theorem applied at the default certificate/key paths —
a mismatching pair fails with the key-mismatch error and its listener never
accepts, while a loading, matching pair constructs the TLS server. -/
theorem c4_tls_context_validation_witness :
    (HttpServer_ctor "::" "443" "ssl/server.crt" "ssl/server.key"
        ⟨true, true, false⟩).2 = Except.error keyMismatchMsg ∧
    Event.acceptCall ∉ listenerTrace "::" "443" "ssl/server.crt"
        "ssl/server.key" ⟨true, true, false⟩ ⟨true, true, true, true, true⟩
        [(AcceptRes.conn 5, HsRes.ok)] ∧
    (HttpServer_ctor "::" "443" "ssl/server.crt" "ssl/server.key"
        ⟨true, true, true⟩).2 =
      Except.ok ⟨"::", "443", "ssl/server.crt", "ssl/server.key", true⟩ :=
  ⟨c4_tls_context_validation.2.2.2.1 "::" "443" "ssl/server.crt"
     "ssl/server.key" (by decide) (by decide),
   c4_tls_context_validation.2.2.2.2.2 "::" "443" "ssl/server.crt"
     "ssl/server.key" ⟨true, true, false⟩ ⟨true, true, true, true, true⟩
     [(AcceptRes.conn 5, HsRes.ok)] (by decide) (by decide) rfl,
   c4_tls_context_validation.2.2.2.2.1 "::" "443" "ssl/server.crt"
     "ssl/server.key" (by decide) (by decide)⟩

/-! ### Claim C5 -/

/-- C5: the claim says a listener-startup failure is reported to standard
error, the process exits non-zero, and the other listener's startup attempt
is not crashed.  In the code a startup failure throws inside the listener's
own `std::thread` lambda; the exception is uncaught in that thread, so the
C++ runtime calls terminate and the whole process — the still-healthy
sibling listener included — is aborted, while the `catch` block in `main`
that would print the report applies only to main-thread exceptions and then
falls through to `return 0`.  This theorem evaluates the model at the
failing input: a bind failure on the plaintext listener aborts the process,
no listener survives, and main's own catch path exits with code 0. -/
theorem c5_startup_failure_aborts_whole_process :
    listenerResult "::" "80" "" "" ⟨true, true, true⟩
        ⟨true, true, true, false, true⟩ =
      Except.error "Failed to bind socket" ∧
    mainProcess (Except.error "Failed to bind socket") (Except.ok ()) =
      ProcOutcome.terminated ∧
    listenerSurvives
        (mainProcess (Except.error "Failed to bind socket")
          (Except.ok ())) = false ∧
    mainCatchExitCode = 0 :=
  ⟨rfl, rfl, rfl, rfl⟩

/-! ### Claim C6 -/

/-- C6: the claim says a payload longer than 1024 bytes is echoed truncated
to exactly its first 1024 bytes.  In the code the read fills the whole
1024-byte buffer, and when those bytes contain no NUL `response += buffer`
finds no terminator inside the buffer and scans past its end — undefined
behaviour, not the claimed truncation.  This theorem evaluates the model at
the failing input: a 1025-byte payload of the letter A (0x41) makes the
handler's behaviour undefined (`none`). -/
theorem c6_oversized_payload_undefined :
    handle_request 3 t0 (oneReadOf (List.replicate 1025 65)) 0 = none ∧
    1024 < (List.replicate 1025 65).length := by
  constructor
  · have h1 : (List.replicate 1025 (65 : Nat)).take 1024 =
        List.replicate 1024 65 := by
      rw [List.take_replicate]
      norm_num
    have h2 : mkBuffer (List.replicate 1024 65) = List.replicate 1024 65 := by
      have h3 : ((List.replicate 1024 (65 : Nat)).take 1024).length = 1024 := by
        rw [List.take_replicate]
        norm_num
      rw [mkBuffer_of_full _ h3, List.take_replicate]
      norm_num
    simp only [oneReadOf, h1, handle_request, h2,
      cString_replicate_ne 1024 65 (by norm_num)]
  · simp only [List.length_replicate]
    norm_num

/-- The empty path is empty — evaluation of `std::string::empty` on `""`. -/
theorem emptyPath_isEmpty : "".isEmpty = true := rfl

/-! ### Claim C7 -/

/-- C7: on an encrypted listener, an accepted connection whose TLS handshake
fails is abandoned alone — its session is freed and its socket closed, the
shared server state (TLS context included) is unchanged, no event touches
another connection's descriptor, no handler is spawned, and the loop
proceeds to the next accept. -/
theorem c7_handshake_failure_isolated (cfg : ServerCfg) (fd : Int)
    (h : cfg.use_ssl = true) :
    loopIteration cfg (AcceptRes.conn fd) HsRes.fail =
      ([Event.acceptCall, Event.sslNewCall, Event.sslSetFdCall fd,
        Event.sslAcceptCall, Event.sslFreeCall, Event.closeCall fd],
       true, cfg) ∧
    (∀ fd2 : Int, fd2 ≠ fd →
      Event.closeCall fd2 ∉ (loopIteration cfg (AcceptRes.conn fd) HsRes.fail).1) ∧
    (∀ fd2 : Int,
      Event.spawnSSL fd2 ∉ (loopIteration cfg (AcceptRes.conn fd) HsRes.fail).1) := by
  refine ⟨by simp [loopIteration, h], ?_, ?_⟩
  · intro fd2 hne
    simp [loopIteration, h, hne]
  · intro fd2
    simp [loopIteration, h]

/-- C7 witness: the theorem applied to a concrete TLS server and descriptor. -/
theorem c7_handshake_failure_isolated_witness :
    loopIteration ⟨"::", "443", "ssl/server.crt", "ssl/server.key", true⟩
        (AcceptRes.conn 5) HsRes.fail =
      ([Event.acceptCall, Event.sslNewCall, Event.sslSetFdCall 5,
        Event.sslAcceptCall, Event.sslFreeCall, Event.closeCall 5],
       true, ⟨"::", "443", "ssl/server.crt", "ssl/server.key", true⟩) :=
  (c7_handshake_failure_isolated
    ⟨"::", "443", "ssl/server.crt", "ssl/server.key", true⟩ 5 rfl).1

/-! ### Claim C8 -/

/-- C8: a failed `accept` is logged via `perror("accept")` and the loop goes
on to the next accept: the iteration performs no other action, leaves the
server state unchanged, reports that the loop continues, and the remaining
connection outcomes are processed exactly as if the failure had not
happened. -/
theorem c8_accept_failure_loop_continues (cfg : ServerCfg) (hs : HsRes)
    (rest : List (AcceptRes × HsRes)) :
    loopIteration cfg AcceptRes.fail hs =
      ([Event.acceptCall, Event.perrorCall "accept"], true, cfg) ∧
    loopRun cfg ((AcceptRes.fail, hs) :: rest) =
      [Event.acceptCall, Event.perrorCall "accept"] ++ loopRun cfg rest := by
  constructor
  · rfl
  · simp [loopRun, loopIteration]

/-! ### Claim C9 -/

/-- C9: a constructed server has TLS enabled exactly when both the
certificate path and the key path are non-empty; with exactly one of the two
supplied, construction yields a plaintext listener for every environment —
the OpenSSL calls are skipped entirely (no certificate loading) and no
validation error can occur. -/
theorem c9_ssl_iff_both_paths :
    (∀ (a p c k : String) (env : SSLEnv) (cfg : ServerCfg),
        (HttpServer_ctor a p c k env).2 = Except.ok cfg →
        (cfg.use_ssl = true ↔ (c.isEmpty = false ∧ k.isEmpty = false))) ∧
    (∀ (a p c : String) (env : SSLEnv), c.isEmpty = false →
        HttpServer_ctor a p c "" env = ([], Except.ok ⟨a, p, c, "", false⟩)) ∧
    (∀ (a p k : String) (env : SSLEnv), k.isEmpty = false →
        HttpServer_ctor a p "" k env = ([], Except.ok ⟨a, p, "", k, false⟩)) := by
  refine ⟨?_, ?_, ?_⟩
  · intro a p c k env cfg h
    rcases env with ⟨cl, kl, km⟩
    by_cases hc : c.isEmpty <;> by_cases hk : k.isEmpty <;>
      cases cl <;> cases kl <;> cases km <;>
        simp only [HttpServer_ctor, hc, hk, Bool.not_true, Bool.not_false,
          Bool.false_and, Bool.and_false, Bool.true_and, Bool.and_true,
          if_true, if_false, Bool.false_eq_true, reduceIte] at h <;>
        first
          | (injection h with h; subst h; simp [hc, hk])
          | exact absurd h (by simp)
  · intro a p c env hc
    simp [HttpServer_ctor, hc, emptyPath_isEmpty]
  · intro a p k env hk
    simp [HttpServer_ctor, hk, emptyPath_isEmpty]

/-- C9 witness: the theorem applied with only one of the two paths supplied
(each way), with an environment in which every OpenSSL call would fail —
construction still succeeds as a plaintext listener. -/
theorem c9_ssl_iff_both_paths_witness :
    HttpServer_ctor "::" "443" "ssl/server.crt" "" ⟨false, false, false⟩ =
      ([], Except.ok ⟨"::", "443", "ssl/server.crt", "", false⟩) ∧
    HttpServer_ctor "::" "443" "" "ssl/server.key" ⟨false, false, false⟩ =
      ([], Except.ok ⟨"::", "443", "", "ssl/server.key", false⟩) :=
  ⟨c9_ssl_iff_both_paths.2.1 "::" "443" "ssl/server.crt"
     ⟨false, false, false⟩ (by decide),
   c9_ssl_iff_both_paths.2.2 "::" "443" "ssl/server.key"
     ⟨false, false, false⟩ (by decide)⟩

/-! ### Claim C10 -/

/-- Claim C10 as stated: for every TLS connection whose handshake succeeded,
`handle_request_ssl` itself shuts the session down and closes the underlying
descriptor before returning, and the spawning thread then shuts down a
second time before freeing, so the full task trace holds two shutdowns. -/
def teardownInHandlerClaim : Prop :=
  ∀ (fd : Int) (t : Tm) (r : ReadRes) (wret : Int) (tr : List Event),
    handle_request_ssl fd t r wret = some tr →
    (Event.sslShutdownCall ∈ tr ∧ Event.closeCall fd ∈ tr) ∧
    (∀ tr2 : List Event, sslConnTask fd t r wret = some tr2 →
      countShutdowns tr2 = 2)

/-- C10 counterexample: on a connection whose handshake succeeded but whose
`SSL_read` returned zero, the handler returns before its teardown lines, so
its trace holds neither an `SSL_shutdown` nor a close. -/
theorem c10_early_return_counterexample : ¬ teardownInHandlerClaim := by
  intro h
  have h0 := h 3 t0 (ReadRes.bytes []) 0 [Event.sslReadCall 1024] rfl
  have h1 := h0.1.1
  simp at h1

/-- C10 (amended): for every TLS connection whose handshake succeeds and
whose read delivers a positive byte count, `handle_request_ssl` itself
performs `SSL_shutdown` and closes the underlying descriptor before
returning, and the spawning thread then performs `SSL_shutdown` a second
time before freeing the session, so teardown happens inside the handler and
the shutdown step runs twice; when the read returns zero or less the handler
returns without teardown and only the thread's single shutdown-and-free
runs. -/
theorem c10_amended_teardown_on_success (fd : Int) (t : Tm) (bs : List Nat)
    (wret : Int) (echoed : List Nat) (hb : 0 < bs.length)
    (hcs : cString (mkBuffer bs) = some echoed) :
    handle_request_ssl fd t (ReadRes.bytes bs) wret =
      some ([Event.sslReadCall 1024]
            ++ sslWriteEvents (respBytes t echoed) wret
            ++ [Event.sslShutdownCall, Event.closeCall fd]) ∧
    sslConnTask fd t (ReadRes.bytes bs) wret =
      some ([Event.sslReadCall 1024]
            ++ sslWriteEvents (respBytes t echoed) wret
            ++ [Event.sslShutdownCall, Event.closeCall fd,
                Event.sslShutdownCall, Event.sslFreeCall]) ∧
    countShutdowns ([Event.sslReadCall 1024]
            ++ sslWriteEvents (respBytes t echoed) wret
            ++ [Event.sslShutdownCall, Event.closeCall fd,
                Event.sslShutdownCall, Event.sslFreeCall]) = 2 := by
  have hbne : ¬ bs.length = 0 := by omega
  refine ⟨by simp [handle_request_ssl, hbne, hcs], ?_, ?_⟩
  · simp [sslConnTask, handle_request_ssl, hbne, hcs]
  · by_cases hw : wret ≤ 0 <;>
      simp [countShutdowns, sslWriteEvents, hw, List.filter_append]

/-- C10 witness: the amended theorem applied to the one-byte payload "p". -/
theorem c10_amended_teardown_on_success_witness :
    handle_request_ssl 9 t0 (ReadRes.bytes [112]) 1 =
      some ([Event.sslReadCall 1024]
            ++ sslWriteEvents (respBytes t0 [112]) 1
            ++ [Event.sslShutdownCall, Event.closeCall 9]) ∧
    sslConnTask 9 t0 (ReadRes.bytes [112]) 1 =
      some ([Event.sslReadCall 1024]
            ++ sslWriteEvents (respBytes t0 [112]) 1
            ++ [Event.sslShutdownCall, Event.closeCall 9,
                Event.sslShutdownCall, Event.sslFreeCall]) ∧
    countShutdowns ([Event.sslReadCall 1024]
            ++ sslWriteEvents (respBytes t0 [112]) 1
            ++ [Event.sslShutdownCall, Event.closeCall 9,
                Event.sslShutdownCall, Event.sslFreeCall]) = 2 :=
  c10_amended_teardown_on_success 9 t0 [112] 1 [112] (by norm_num)
    (cString_mkBuffer_small [112] (by norm_num) (by decide))

end HAperf
